import Mathlib

/-!
Verification of the trait-validated object model and serialization pipeline
of altair v2 (src/altair/v2/api.py), against its natural-language
specification.  Pure parts of the Python code are embedded as Lean
functions; fallible code returns Except; the schema/jstraitlets machinery
that api.py builds on is not part of src/ and is modelled from the spec
where a claim depends on it (each such definition says so in its doc
comment).
-/

namespace AltairV2

/-- JSON-compatible document values: the external wire form of section 3
of the spec (string, number, boolean, null, array, nested mapping). -/
inductive JValue where
  | str (s : String)
  | num (n : Int)
  | bool (b : Bool)
  | null
  | arr (elems : List JValue)
  | obj (fields : List (String × JValue))
deriving Repr

/-- A Document is an ordered mapping from string keys to JSON values. -/
abbrev Doc := List (String × JValue)

/-- First-match key lookup in a document, the embedding of a Python dict
read `dct[k]` (keys of a parsed JSON dict are unique). -/
def lookupDoc : Doc → String → Option JValue
  | [], _ => none
  | (k, v) :: rest, key => if k = key then some v else lookupDoc rest key

/-- Membership test for a key, the embedding of Python `k in dct`. -/
def hasKeyDoc (d : Doc) (k : String) : Bool :=
  (lookupDoc d k).isSome

/-- Embedding of the dict comprehension
`\x7bk: v for k, v in dct.items() if k != key\x7d`: drop every entry
carrying the given key, preserving order. -/
def removeKeyDoc : Doc → String → Doc
  | [], _ => []
  | (k, v) :: rest, key =>
    if k = key then removeKeyDoc rest key
    else (k, v) :: removeKeyDoc rest key

/-- Embedding of the Python dict assignment `dct[key] = v`: overwrite in
place when the key is present, append otherwise. -/
def setKeyDoc (d : Doc) (key : String) (v : JValue) : Doc :=
  if hasKeyDoc d key then
    d.map (fun kv => if kv.1 = key then (key, v) else kv)
  else
    d ++ [(key, v)]

mutual
/-- Modelled from the spec: the per-field type constraints of a Field
Descriptor (spec section 3); the jstraitlets module that implements them
is not under src/.  Primitive JSON fields, expression-union fields
(string or live expression adapter), nested-entity fields and array
fields are the shapes the claims exercise. -/
inductive FieldConstraint where
  | primField
  | exprField
  | entityField (fields : FieldDecls)
  | arrayField (elem : FieldConstraint)

/-- Modelled from the spec: the ordered declared-field table of an Entity
type (field name paired with its constraint, spec section 3). -/
inductive FieldDecls where
  | nil
  | cons (name : String) (c : FieldConstraint) (rest : FieldDecls)
end

mutual
/-- Modelled from the spec: a current field value of an Entity: the
undefined sentinel, a JSON value, a live expression-adapter object
(carrying its canonical textual rendering), a nested entity, or an array
of values (spec sections 3 and 4.3). -/
inductive EntityValue where
  | undef
  | jval (v : JValue)
  | exprObj (rendered : String)
  | node (fields : ValueList)
  | list (elems : ValueList)

/-- Modelled from the spec: the field values of an entity, aligned with
its declared-field table (one slot per declared field, in declaration
order). -/
inductive ValueList where
  | nil
  | cons (v : EntityValue) (rest : ValueList)
end

/-- The declared field names, in declaration order. -/
def declNames : FieldDecls → List String
  | .nil => []
  | .cons n _ rest => n :: declNames rest

/-- Membership of a name in a name list. -/
def nameMem (key : String) : List String → Bool
  | [] => false
  | n :: rest => key == n || nameMem key rest

mutual
/-- Well-formedness of a constraint: nested declared-field tables have
pairwise-distinct names (an Entity maps each field name to one
descriptor, spec section 3). -/
def wfC : FieldConstraint → Bool
  | .primField => true
  | .exprField => true
  | .entityField fs => wfD fs
  | .arrayField c => wfC c

/-- Well-formedness of a declared-field table: distinct names, each
constraint well-formed. -/
def wfD : FieldDecls → Bool
  | .nil => true
  | .cons n c rest => !(nameMem n (declNames rest)) && wfC c && wfD rest
end

/-- Test for the undefined sentinel. -/
def isUndef : EntityValue → Bool
  | .undef => true
  | _ => false

mutual
/-- A value satisfies a field constraint (spec sections 4.1 and 4.2): a
primitive field holds a JSON value, an expression field holds text or a
live expression adapter, an entity field holds a nested entity whose
values satisfy the nested table, an array field holds a list of
satisfying values.  The undefined sentinel never satisfies a constraint
directly; it is handled at the field slot. -/
def matchesC : FieldConstraint → EntityValue → Bool
  | .primField, .jval _ => true
  | .exprField, .jval (.str _) => true
  | .exprField, .exprObj _ => true
  | .entityField fs, .node vs => matchesF fs vs
  | .arrayField c, .list es => matchesL c es
  | _, _ => false

/-- Every field slot is undefined or satisfies its declared constraint,
and the value list is aligned with the declared-field table. -/
def matchesF : FieldDecls → ValueList → Bool
  | .nil, .nil => true
  | .cons _ c dr, .cons v vr => (isUndef v || matchesC c v) && matchesF dr vr
  | _, _ => false

/-- Every array element satisfies the element constraint. -/
def matchesL : FieldConstraint → ValueList → Bool
  | _, .nil => true
  | c, .cons v vr => matchesC c v && matchesL c vr
end

mutual
/-- No live expression-adapter object occurs anywhere in the value. -/
def noExprV : EntityValue → Bool
  | .exprObj _ => false
  | .node fs => noExprL fs
  | .list es => noExprL es
  | _ => true

/-- No live expression-adapter object occurs in any of the values. -/
def noExprL : ValueList → Bool
  | .nil => true
  | .cons v r => noExprV v && noExprL r
end

mutual
/-- Modelled from the spec: the Finalization Pass on a value (spec
section 4.4), run depth-first on a working copy before export; its
expression-relevant effect is converting a live expression adapter to
its canonical textual form. -/
def finalizeV : EntityValue → EntityValue
  | .exprObj r => .jval (.str r)
  | .node fs => .node (finalizeL fs)
  | .list es => .list (finalizeL es)
  | v => v

/-- Depth-first finalization of a list of values. -/
def finalizeL : ValueList → ValueList
  | .nil => .nil
  | .cons v r => .cons (finalizeV v) (finalizeL r)
end

mutual
/-- Modelled from the spec: serialization of one non-undefined field
value (spec section 4.3, to_document): JSON values are projected as
they stand, expression adapters degrade to their textual rendering,
nested entities become nested documents, arrays become JSON arrays. -/
def serializeValue : FieldConstraint → EntityValue → JValue
  | _, .jval v => v
  | _, .exprObj r => .str r
  | .entityField fs, .node vs => .obj (serializeFields fs vs)
  | .arrayField c, .list es => .arr (serializeList c es)
  | _, _ => .null

/-- Modelled from the spec: project every declared field whose value is
not the undefined sentinel into a document key, in declaration order. -/
def serializeFields : FieldDecls → ValueList → Doc
  | .cons n c dr, .cons v vr =>
    if isUndef v then serializeFields dr vr
    else (n, serializeValue c v) :: serializeFields dr vr
  | _, _ => []

/-- Serialization of the elements of an array field. -/
def serializeList : FieldConstraint → ValueList → List JValue
  | _, .nil => []
  | c, .cons v r => serializeValue c v :: serializeList c r
end

mutual
/-- Modelled from the spec: reconstruction of one field value from a
document value (spec section 4.3, from_document), dispatching on the
document shape: an entity-constrained key holding a nested mapping is
rehydrated recursively, an array-constrained key holding an array is
rehydrated elementwise, and anything else is kept as the JSON value. -/
def parseValue : FieldConstraint → JValue → EntityValue
  | .entityField fs, .obj d => .node (parseFields fs d)
  | .arrayField c, .arr vs => .list (parseList c vs)
  | _, v => .jval v
termination_by c v => (sizeOf c, sizeOf v)

/-- Modelled from the spec: reconstruct field values by looking up each
declared field name in the document; a missing key leaves the field at
the undefined sentinel, and unknown document keys are ignored. -/
def parseFields : FieldDecls → Doc → ValueList
  | .nil, _ => .nil
  | .cons n c dr, d =>
    match lookupDoc d n with
    | some v => .cons (parseValue c v) (parseFields dr d)
    | none => .cons .undef (parseFields dr d)
termination_by ds _ => (sizeOf ds, 0)

/-- Reconstruction of the elements of an array field. -/
def parseList : FieldConstraint → List JValue → ValueList
  | _, [] => .nil
  | c, v :: r => .cons (parseValue c v) (parseList c r)
termination_by c l => (sizeOf c, sizeOf l)
end

/-- Modelled from the spec: the schema-version URL attached on export
under the reserved key; the generated schema catalogue providing
`schema.vegalite_schema_url` is not under src/.  Only its identity
matters to the claims, not its exact text. -/
def vegalite_schema_url : String :=
  "https://vega.github.io/schema/vega-lite/v2.json"

/-- Warnings the import path can emit (spec section 7):
`SchemaVersionMismatchWarning`, carrying the value found under the
reserved key, per the `warnings.warn` call in `from_dict`
(api.py lines 408 to 415). -/
inductive AltairWarning where
  | schemaVersionMismatch (found : JValue)

/-- Embedding of the Python comparison
`dct["$schema"] != schema.vegalite_schema_url` (negated): a document
value equals the expected version string exactly when it is that
string. -/
def isSchemaUrl : JValue → Bool
  | .str s => s = vegalite_schema_url
  | _ => false

/-- Embedding of `TopLevelMixin.to_dict` (api.py lines 373 to 392): the
superclass serializer produces the document of the entity (running the
Finalization Pass on a working copy first, per spec section 4.3, both
modelled from the spec since jstraitlets is not under src/), then
`dct["$schema"] = schema.vegalite_schema_url` adds the reserved
schema-version key. -/
def TopLevelMixin_to_dict (ds : FieldDecls) (vs : ValueList) : Doc :=
  setKeyDoc (serializeFields ds (finalizeL vs)) "$schema" (.str vegalite_schema_url)

/-- Embedding of `TopLevelMixin.from_dict` (api.py lines 394 to 416):
when the reserved key is present, warn if its value differs from the
expected schema version, then strip the key; reconstruction then
proceeds on the remaining keys through the superclass deserializer
(modelled from the spec).  Returns the emitted warnings together with
the reconstructed field values. -/
def TopLevelMixin_from_dict (ds : FieldDecls) (dct : Doc) :
    List AltairWarning × ValueList :=
  match lookupDoc dct "$schema" with
  | some v =>
    (if isSchemaUrl v then [] else [.schemaVersionMismatch v],
     parseFields ds (removeKeyDoc dct "$schema"))
  | none => ([], parseFields ds dct)

/-- The three top-level composite variants (spec section 2). -/
inductive ChartVariant where
  | single
  | layered
  | faceted
deriving DecidableEq, Repr

/-- Result of `Chart.from_dict`: which composite variant was selected,
together with the warnings and field values its reconstruction
produced. -/
inductive ChartFromDictResult where
  | layered (r : List AltairWarning × ValueList)
  | faceted (r : List AltairWarning × ValueList)
  | single (r : List AltairWarning × ValueList)

/-- The variant tag of a `Chart.from_dict` result. -/
def ChartFromDictResult.variant : ChartFromDictResult → ChartVariant
  | .layered _ => .layered
  | .faceted _ => .faceted
  | .single _ => .single

/-- Embedding of the classmethod `Chart.from_dict` (api.py lines 699 to
706): if the document has a "layer" key, reconstruct through
`LayeredChart.from_dict`; otherwise if it has a "facet" key, through
`FacetedChart.from_dict`; otherwise through the single-view superclass
path.  The three declared-field tables are those of the three composite
classes; the dispatch inspects only the document keys. -/
def Chart_from_dict (chartTy layeredTy facetedTy : FieldDecls) (spec : Doc) :
    ChartFromDictResult :=
  if hasKeyDoc spec "layer" then
    .layered (TopLevelMixin_from_dict layeredTy spec)
  else if hasKeyDoc spec "facet" then
    .faceted (TopLevelMixin_from_dict facetedTy spec)
  else
    .single (TopLevelMixin_from_dict chartTy spec)

/-- A concrete in-memory table (pandas DataFrame) as far as the claims
inspect it: its row count (`len(df)`) and its column names (for the
column subsetting `df[columns]`). -/
structure PDataFrame where
  rows : Nat
  cols : List String
deriving DecidableEq, Repr

/-- An already-constructed `Data` binding object (URL reference or
inline); the claims only exercise its url field
(`Data(url=new)` at api.py line 597). -/
structure DataObj where
  url : Option String
deriving DecidableEq, Repr

/-- The value found in the `_data` slot of a deferred expression-bound
frame (`expr.DataFrame._data`); the expr module is an external
collaborator, so the slot is modelled by the kinds of value the data
setter distinguishes. -/
inductive BaseData where
  | pyNone
  | pyStr (s : String)
  | pyDataFrame (df : PDataFrame)
  | pyData (d : DataObj)
  | pyOther (rendered : String)
deriving DecidableEq, Repr

/-- A deferred expression-bound frame (`expr.DataFrame`), an external
collaborator object: its referenced columns (`_cols`), its calculated
columns (`_calculated_cols`, a name-to-expression mapping whose
expressions are carried by their canonical textual rendering), its
filter expressions (`_filters`, likewise carried by rendering), and the
underlying data (`_data`). -/
structure ExprDataFrame where
  cols : Option (List String)
  calculated_cols : List (String × String)
  filters : List String
  base : BaseData
deriving DecidableEq, Repr

/-- The kinds of Python value a data-setter assignment can receive,
distinguished exactly as the isinstance chain at api.py lines 594 to 602
distinguishes them; `pyOther` carries the str() rendering used in the
TypeError message. -/
inductive DataValue where
  | pyNone
  | pyStr (s : String)
  | pyDataFrame (df : PDataFrame)
  | pyExprDataFrame (edf : ExprDataFrame)
  | pyData (d : DataObj)
  | pyOther (rendered : String)
deriving DecidableEq, Repr

/-- What the `_data` slot of a composite holds after a successful setter
assignment (None is represented by an absent slot). -/
inductive StoredData where
  | dataFrame (df : PDataFrame)
  | exprDataFrame (edf : ExprDataFrame)
  | dataObj (d : DataObj)
deriving DecidableEq, Repr

/-- The errors the embedded operations can raise: `MaxRowsExceeded`
(api.py lines 187 to 189), TypeError from the data setter or the
layering operator, and the UnknownFieldError of spec section 7 for an
unknown construction keyword. -/
inductive AltairError where
  | maxRowsExceeded (msg : String)
  | typeError (msg : String)
  | unknownField (name : String)
deriving DecidableEq, Repr

/-- Embedding of the `Chart.data` setter (api.py lines 594 to 602): a
string is wrapped into `Data(url=new)`; None, a DataFrame, an
expr.DataFrame or a Data object is stored as given; anything else
raises TypeError with the message built at api.py line 602. -/
def Chart_data_setter : DataValue → Except AltairError (Option StoredData)
  | .pyStr s => .ok (some (.dataObj { url := some s }))
  | .pyNone => .ok none
  | .pyDataFrame df => .ok (some (.dataFrame df))
  | .pyExprDataFrame edf => .ok (some (.exprDataFrame edf))
  | .pyData d => .ok (some (.dataObj d))
  | .pyOther r => .error (.typeError ("Expected DataFrame or altair.Data, got: " ++ r))

/-- Embedding of the `LayeredChart.data` setter (api.py lines 746 to
754), textually identical to the Chart setter. -/
def LayeredChart_data_setter : DataValue → Except AltairError (Option StoredData)
  | .pyStr s => .ok (some (.dataObj { url := some s }))
  | .pyNone => .ok none
  | .pyDataFrame df => .ok (some (.dataFrame df))
  | .pyExprDataFrame edf => .ok (some (.exprDataFrame edf))
  | .pyData d => .ok (some (.dataObj d))
  | .pyOther r => .error (.typeError ("Expected DataFrame or altair.Data, got: " ++ r))

/-- Embedding of the `FacetedChart.data` setter (api.py lines 803 to
811), textually identical to the Chart setter. -/
def FacetedChart_data_setter : DataValue → Except AltairError (Option StoredData)
  | .pyStr s => .ok (some (.dataObj { url := some s }))
  | .pyNone => .ok none
  | .pyDataFrame df => .ok (some (.dataFrame df))
  | .pyExprDataFrame edf => .ok (some (.exprDataFrame edf))
  | .pyData d => .ok (some (.dataObj d))
  | .pyOther r => .error (.typeError ("Expected DataFrame or altair.Data, got: " ++ r))

/-- Embedding of `DEFAULT_MAX_ROWS = 5000` (api.py line 191). -/
def DEFAULT_MAX_ROWS : Nat := 5000

/-- The message of the `MaxRowsExceeded` error, exactly as built at
api.py lines 546 to 553: the percent interpolation receives the module
constant `DEFAULT_MAX_ROWS`, and no other value. -/
def maxRowsErrorMessage : String :=
  "Your dataset has too many rows and could take a long " ++
  "time to send to the frontend or to render. To override the " ++
  "default maximum rows (" ++ toString DEFAULT_MAX_ROWS ++ "), set the max_rows property of " ++
  "your Chart to an integer larger than the number of rows " ++
  "in your dataset. Alternatively you could perform aggregations " ++
  "or other data reductions before using it with Altair"

/-- Substring occurrence on character lists, used to state that an error
message does or does not surface a number. -/
def containsSub (pat : List Char) : List Char → Bool
  | [] => pat.isEmpty
  | c :: rest => pat.isPrefixOf (c :: rest) || containsSub pat rest

/-- A message surfaces a number when the decimal rendering of the number
occurs in the message text. -/
def mentionsNat (msg : String) (n : Nat) : Bool :=
  containsSub (toString n).toList msg.toList

/-- The value held by the expression-capable traits of the transform
wrappers (`FilterTransform.filter`, `CalculateTransform.calculate`,
api.py lines 238 to 277): serialized text, a live expression object
(carried by its repr), one of the structured filter entities (opaque to
the finalization pass), or a list of such values. -/
inductive FilterVal where
  | str (s : String)
  | exprObj (rendered : String)
  | equalFilter (payload : String)
  | rangeFilter (payload : String)
  | oneOfFilter (payload : String)
  | list (elems : List FilterVal)

/-- Embedding of the lambda at api.py line 273:
`lambda f: repr(f) if isinstance(f, expr.Expression) else f`. -/
def convert : FilterVal → FilterVal
  | .exprObj r => .str r
  | v => v

/-- Embedding of `CalculateTransform._finalize` on its calculate trait
(api.py lines 246 to 250): a live expression is replaced by its repr;
anything else is left untouched. -/
def CalculateTransform_finalize : FilterVal → FilterVal
  | .exprObj r => .str r
  | v => v

/-- Embedding of `FilterTransform._finalize` on its filter trait
(api.py lines 271 to 277): the trait is converted, and if it then holds
a list, each element is converted. -/
def FilterTransform_finalize (f : FilterVal) : FilterVal :=
  match convert f with
  | .list es => .list (es.map convert)
  | v => v

/-- The calculated-field transform directive as constructed by the
wrapper class (api.py lines 238 to 244): the name of the new field
(`as_`) and the calculate trait, which is left at the undefined sentinel
when the constructor does not receive it. -/
structure CalcTransform where
  as_ : String
  calculate : Option FilterVal

/-- The declared fields of the CalculateTransform entity: `as_` (the
schema key "as") and `calculate` (api.py lines 238 to 244; the
underlying schema catalogue declares no others for this transform). -/
def calculateTransformFields : List String := ["as_", "calculate"]

/-- Embedding of `CalculateTransform.__init__` (api.py lines 243 to
244): the first positional argument binds `as_`, the keyword `calculate`
(defaulting to the undefined sentinel) binds the calculate trait, and
every remaining keyword is forwarded to the schema-entity constructor.
Modelled from the spec for the forwarded keywords: the schema-entity
constructor, which is not under src/, rejects an unknown keyword name
with UnknownFieldError (spec section 4.3). -/
def CalculateTransform_init (a : String) (calculate : Option FilterVal)
    (kwargs : List (String × FilterVal)) : Except AltairError CalcTransform :=
  match kwargs.find? (fun kv => !(calculateTransformFields.contains kv.1)) with
  | some kv => .error (.unknownField kv.1)
  | none => .ok { as_ := a, calculate := calculate }

/-- The transform pipeline of a composite as far as the claims inspect
it: its list of calculated-field directives and its filter directive
(each undefined until first spliced). -/
structure TransformState where
  calculate : Option (List CalcTransform)
  filter : Option FilterVal

/-- The state of a top-level composite that `_finalize_data` reads and
writes: the `_data` slot, the configured `max_rows` ceiling
(api.py lines 585 to 588, default DEFAULT_MAX_ROWS), and the transform
pipeline. -/
structure ChartState where
  data : Option StoredData
  max_rows : Nat
  transform : TransformState

/-- Modelled from the spec: `transform_data(calculate=...)` splices the
given calculated-field directives into the composite transform pipeline
(spec sections 4.4 and 4.6); the method body lives with the schema
machinery, not under src/. -/
def transform_data_calculate (c : ChartState) (cts : List CalcTransform) : ChartState :=
  { c with transform := { c.transform with
      calculate := some (c.transform.calculate.getD [] ++ cts) } }

/-- Modelled from the spec: `transform_data(filter=...)` splices the
given filter directive into the composite transform pipeline. -/
def transform_data_filter (c : ChartState) (f : FilterVal) : ChartState :=
  { c with transform := { c.transform with filter := some f } }

/-- The `_data` slot of an expression-bound frame, as a setter input. -/
def BaseData.toDataValue : BaseData → DataValue
  | .pyNone => .pyNone
  | .pyStr s => .pyStr s
  | .pyDataFrame df => .pyDataFrame df
  | .pyData d => .pyData d
  | .pyOther r => .pyOther r

/-- Embedding of the pandas column subsetting `df[columns]`
(api.py line 562): the frame is pruned to the named columns. -/
def PDataFrame.select (df : PDataFrame) (columns : List String) : PDataFrame :=
  { rows := df.rows, cols := columns }

/-- Embedding of `TopLevelMixin._finalize_data` (api.py lines 533 to
572).  First the row-count guard: a concrete DataFrame with more rows
than the configured max_rows raises MaxRowsExceeded.  Then the
expression handling: an expression-bound frame is decomposed into its
underlying data (assigned through the data setter), pruned to the
referenced columns when these are given and the data is a DataFrame;
its calculated columns become CalculateTransform directives constructed
as `CalculateTransform(field, expr=exp)`; and its filters are spliced
as one filter directive when there is a single one, as a list
otherwise. -/
def finalize_data (c : ChartState) : Except AltairError ChartState := do
  match c.data with
  | some (.dataFrame df) =>
    if df.rows > c.max_rows then
      .error (.maxRowsExceeded maxRowsErrorMessage)
    else
      .ok c
  | some (.exprDataFrame edf) => do
    let nd ← Chart_data_setter edf.base.toDataValue
    let nd := match edf.cols, nd with
      | some columns, some (.dataFrame df) => some (.dataFrame (df.select columns))
      | _, x => x
    let c1 : ChartState := { c with data := nd }
    let c2 ← (match edf.calculated_cols with
      | [] => Except.ok c1
      | ccs => do
        let cts ← ccs.mapM (fun fe =>
          CalculateTransform_init fe.1 none [("expr", FilterVal.exprObj fe.2)])
        Except.ok (transform_data_calculate c1 cts))
    let c3 := (match edf.filters with
      | [] => c2
      | [f] => transform_data_filter c2 (.str f)
      | fs => transform_data_filter c2 (.list (fs.map FilterVal.str)))
    .ok c3
  | _ => .ok c

/-- Minimal single-view composite for the layering-operator claims: the
mark is the only unit-spec field these claims inspect (api.py line 583
declares it, default "point"). -/
structure ChartObj where
  mark : String
deriving DecidableEq, Repr

/-- The layered composite for the layering-operator claims: its `layer`
trait is either the undefined sentinel or an ordered list of single-view
children (api.py lines 729 to 781). -/
structure LayeredChartObj where
  layer : Option (List ChartObj)
deriving DecidableEq, Repr

/-- Embedding of `LayeredChart.__iadd__` (api.py lines 776 to 781): when
the layer trait is undefined it becomes the one-element list, otherwise
the new child is appended at the end. -/
def LayeredChart_iadd (lc : LayeredChartObj) (c : ChartObj) : LayeredChartObj :=
  match lc.layer with
  | none => { layer := some [c] }
  | some l => { layer := some (l ++ [c]) }

/-- The possible right operands of `Chart.__add__`: another single-view
Chart, a LayeredChart (not a Chart subclass in api.py), or any other
Python value. -/
inductive AddOperand where
  | chart (c : ChartObj)
  | layered (lc : LayeredChartObj)
  | other (rendered : String)
deriving DecidableEq, Repr

/-- Embedding of `Chart.__add__` (api.py lines 690 to 697): only an
instance of Chart is accepted; a fresh LayeredChart receives self and
then other by in-place append; any other operand raises TypeError with
the message at api.py line 697. -/
def Chart_add (a : ChartObj) : AddOperand → Except AltairError LayeredChartObj
  | .chart b => .ok (LayeredChart_iadd (LayeredChart_iadd { layer := none } a) b)
  | _ => .error (.typeError "Can only add Charts/LayeredChart to Chart")

/-- Modelled from the spec: the document of a minimal single-view child
(projection of its set fields, here the mark; spec section 4.3); the
generic serializer is not under src/. -/
def ChartObj.toDoc (c : ChartObj) : JValue :=
  .obj [("mark", .str c.mark)]

/-- Export of the layered composite for the layering claim: the layer
trait, when set, is projected to a "layer" array holding the documents
of the children in order (spec section 4.6 requires the order of
children to be preserved through serialization; the generic serializer
is modelled from the spec), and `TopLevelMixin.to_dict` then adds the
reserved schema-version key. -/
def LayeredChart_to_dict (lc : LayeredChartObj) : Doc :=
  setKeyDoc
    (match lc.layer with
     | none => []
     | some l => [("layer", JValue.arr (l.map ChartObj.toDoc))])
    "$schema" (.str vegalite_schema_url)

/-- A small declared-field table of a single-view composite: a primitive
mark, a nested encoding entity with one channel, an array of
expression-capable transforms, and a primitive width. -/
def sampleTy : FieldDecls :=
  .cons "mark" .primField
    (.cons "encoding" (.entityField (.cons "x" .primField .nil))
      (.cons "transform" (.arrayField .exprField)
        (.cons "width" .primField .nil)))

/-- Concrete field values for `sampleTy`: mark and encoding set, one
already-textual transform entry, width left at the undefined
sentinel. -/
def sampleVals : ValueList :=
  .cons (.jval (.str "point"))
    (.cons (.node (.cons (.jval (.str "count")) .nil))
      (.cons (.list (.cons (.jval (.str "datum.x > 1")) .nil))
        (.cons .undef .nil)))

/-- A two-row table. -/
def sampleFrameOk : PDataFrame := { rows := 2, cols := ["x"] }

/-- A three-row table. -/
def sampleFrameBig : PDataFrame := { rows := 3, cols := ["x"] }

/-- An empty transform pipeline. -/
def emptyTransform : TransformState := { calculate := none, filter := none }

/-- A composite whose max_rows ceiling of 2 equals its table's row
count. -/
def sampleChartOk : ChartState :=
  { data := some (.dataFrame sampleFrameOk), max_rows := 2, transform := emptyTransform }

/-- A composite whose table has one row more than its max_rows ceiling
of 2. -/
def sampleChartBig : ChartState :=
  { data := some (.dataFrame sampleFrameBig), max_rows := 2, transform := emptyTransform }

/-- An expression-bound frame with one calculated column, carrying a
concrete three-row table pruned to column x. -/
def buggyExprFrame : ExprDataFrame :=
  { cols := some ["x"]
    calculated_cols := [("y", "(datum.x * 2)")]
    filters := []
    base := .pyDataFrame { rows := 3, cols := ["x", "z"] } }

/-- A composite bound to `buggyExprFrame` with the default max_rows. -/
def buggyChart : ChartState :=
  { data := some (.exprDataFrame buggyExprFrame)
    max_rows := DEFAULT_MAX_ROWS
    transform := emptyTransform }

/-- A document carrying a "layer" key. -/
def layerDoc : Doc := [("layer", .arr []), ("width", .num 100)]

/-- A document carrying a "facet" key and no "layer" key. -/
def facetDoc : Doc := [("facet", .obj []), ("spec", .obj [])]

/-- A document with neither a "layer" nor a "facet" key. -/
def plainDoc : Doc := [("mark", .str "point")]

/-- A document whose reserved schema-version key disagrees with the
expected version. -/
def mismatchedDoc : Doc :=
  [("$schema", .str "https://vega.github.io/schema/vega-lite/v1.json"),
   ("mark", .str "bar")]

/-- A document whose reserved schema-version key agrees with the
expected version. -/
def matchingDoc : Doc :=
  [("$schema", .str vegalite_schema_url), ("mark", .str "bar")]

theorem isUndef_iff (v : EntityValue) : isUndef v = true ↔ v = .undef := by
  cases v <;> simp [isUndef]

theorem lookupDoc_cons_ne (k key : String) (v : JValue) (d : Doc) (h : ¬ k = key) :
    lookupDoc ((k, v) :: d) key = lookupDoc d key := by
  simp [lookupDoc, h]

theorem lookupDoc_append_of_none (d e : Doc) (key : String)
    (h : lookupDoc d key = none) :
    lookupDoc (d ++ e) key = lookupDoc e key := by
  induction d with
  | nil => rfl
  | cons kv rest ih =>
    obtain ⟨k, v⟩ := kv
    by_cases hk : k = key
    · subst hk
      simp [lookupDoc] at h
    · rw [List.cons_append, lookupDoc_cons_ne k key v _ hk]
      rw [lookupDoc_cons_ne k key v _ hk] at h
      exact ih h

theorem nameMem_cons_false {key n : String} {l : List String}
    (h : nameMem key (n :: l) = false) : ¬ key = n ∧ nameMem key l = false := by
  simpa [nameMem] using h

theorem setKeyDoc_of_not_has (d : Doc) (key : String) (v : JValue)
    (h : hasKeyDoc d key = false) : setKeyDoc d key v = d ++ [(key, v)] := by
  simp [setKeyDoc, h]

theorem removeKeyDoc_append (d e : Doc) (key : String) :
    removeKeyDoc (d ++ e) key = removeKeyDoc d key ++ removeKeyDoc e key := by
  induction d with
  | nil => rfl
  | cons kv rest ih =>
    obtain ⟨k, v⟩ := kv
    by_cases hk : k = key <;> simp [removeKeyDoc, hk, ih]

theorem lookupDoc_removeKeyDoc_self (d : Doc) (key : String) :
    lookupDoc (removeKeyDoc d key) key = none := by
  induction d with
  | nil => rfl
  | cons kv rest ih =>
    obtain ⟨k, v⟩ := kv
    by_cases hk : k = key
    · simp [removeKeyDoc, hk, ih]
    · simp [removeKeyDoc, hk, lookupDoc, ih]

theorem lookupDoc_serializeFields_none :
    ∀ (ds : FieldDecls) (vs : ValueList) (key : String),
      nameMem key (declNames ds) = false →
      lookupDoc (serializeFields ds vs) key = none
  | .nil, vs, key, _ => by cases vs <;> rfl
  | .cons _ _ _, .nil, _, _ => rfl
  | .cons n c dr, .cons v vr, key, h => by
    obtain ⟨hne, hrest⟩ := nameMem_cons_false (by simpa [declNames] using h)
    by_cases hu : isUndef v = true
    · simp only [serializeFields, if_pos hu]
      exact lookupDoc_serializeFields_none dr vr key hrest
    · simp only [serializeFields, if_neg hu]
      rw [lookupDoc_cons_ne n key _ _ (fun he => hne he.symm)]
      exact lookupDoc_serializeFields_none dr vr key hrest

theorem removeKeyDoc_serializeFields :
    ∀ (ds : FieldDecls) (vs : ValueList) (key : String),
      nameMem key (declNames ds) = false →
      removeKeyDoc (serializeFields ds vs) key = serializeFields ds vs
  | .nil, vs, key, _ => by cases vs <;> rfl
  | .cons _ _ _, .nil, _, _ => rfl
  | .cons n c dr, .cons v vr, key, h => by
    obtain ⟨hne, hrest⟩ := nameMem_cons_false (by simpa [declNames] using h)
    by_cases hu : isUndef v = true
    · simp only [serializeFields, if_pos hu]
      exact removeKeyDoc_serializeFields dr vr key hrest
    · simp only [serializeFields, if_neg hu]
      rw [removeKeyDoc]
      rw [if_neg (fun he => hne he.symm)]
      rw [removeKeyDoc_serializeFields dr vr key hrest]

theorem parseFields_cons_irrelevant :
    ∀ (ds : FieldDecls) (k : String) (jv : JValue) (d : Doc),
      nameMem k (declNames ds) = false →
      parseFields ds ((k, jv) :: d) = parseFields ds d
  | .nil, _, _, _, _ => by simp [parseFields]
  | .cons n c dr, k, jv, d, h => by
    obtain ⟨hne, hrest⟩ := nameMem_cons_false (by simpa [declNames] using h)
    simp only [parseFields]
    rw [lookupDoc_cons_ne k n jv d hne]
    rw [parseFields_cons_irrelevant dr k jv d hrest]

mutual
theorem parse_serialize_value (c : FieldConstraint) (v : EntityValue)
    (hw : wfC c = true) (hm : matchesC c v = true) (hn : noExprV v = true) :
    parseValue c (serializeValue c v) = v := by
  cases c with
  | primField =>
    cases v with
    | jval j => cases j <;> simp [serializeValue, parseValue]
    | undef => simp [matchesC] at hm
    | exprObj r => simp [matchesC] at hm
    | node fs => simp [matchesC] at hm
    | list es => simp [matchesC] at hm
  | exprField =>
    cases v with
    | jval j => cases j <;> simp [serializeValue, parseValue]
    | exprObj r => simp [noExprV] at hn
    | undef => simp [matchesC] at hm
    | node fs => simp [matchesC] at hm
    | list es => simp [matchesC] at hm
  | entityField fs =>
    cases v with
    | node vs =>
      simp only [serializeValue, parseValue]
      rw [parse_serialize_fields fs vs (by simpa [wfC] using hw)
            (by simpa [matchesC] using hm) (by simpa [noExprV] using hn)]
    | undef => simp [matchesC] at hm
    | jval j => simp [matchesC] at hm
    | exprObj r => simp [matchesC] at hm
    | list es => simp [matchesC] at hm
  | arrayField ec =>
    cases v with
    | list es =>
      simp only [serializeValue, parseValue]
      rw [parse_serialize_list ec es (by simpa [wfC] using hw)
            (by simpa [matchesC] using hm) (by simpa [noExprV] using hn)]
    | undef => simp [matchesC] at hm
    | jval j => simp [matchesC] at hm
    | exprObj r => simp [matchesC] at hm
    | node fs => simp [matchesC] at hm

theorem parse_serialize_fields (ds : FieldDecls) (vs : ValueList)
    (hw : wfD ds = true) (hm : matchesF ds vs = true) (hn : noExprL vs = true) :
    parseFields ds (serializeFields ds vs) = vs := by
  cases ds with
  | nil =>
    cases vs with
    | nil => simp [serializeFields, parseFields]
    | cons v vr => simp [matchesF] at hm
  | cons n c dr =>
    cases vs with
    | nil => simp [matchesF] at hm
    | cons v vr =>
      simp only [wfD, Bool.and_eq_true, Bool.not_eq_true'] at hw
      obtain ⟨⟨hnm, hwc⟩, hwd⟩ := hw
      simp only [matchesF, Bool.and_eq_true, Bool.or_eq_true] at hm
      obtain ⟨hmv, hmf⟩ := hm
      simp only [noExprL, Bool.and_eq_true] at hn
      obtain ⟨hnv, hnl⟩ := hn
      by_cases hu : v = .undef
      · subst hu
        simp only [serializeFields, isUndef, if_pos]
        simp only [parseFields]
        rw [lookupDoc_serializeFields_none dr vr n hnm]
        rw [parse_serialize_fields dr vr hwd hmf hnl]
      · have hm2 : matchesC c v = true := by
          rcases hmv with h | h
          · exact absurd ((isUndef_iff v).mp h) hu
          · exact h
        have hu' : ¬ isUndef v = true := fun h => hu ((isUndef_iff v).mp h)
        simp only [serializeFields, if_neg hu']
        simp only [parseFields]
        rw [lookupDoc, if_pos rfl]
        show ValueList.cons (parseValue c (serializeValue c v))
            (parseFields dr ((n, serializeValue c v) :: serializeFields dr vr)) =
          ValueList.cons v vr
        rw [parse_serialize_value c v hwc hm2 hnv]
        rw [parseFields_cons_irrelevant dr n _ _ hnm]
        rw [parse_serialize_fields dr vr hwd hmf hnl]

theorem parse_serialize_list (c : FieldConstraint) (es : ValueList)
    (hw : wfC c = true) (hm : matchesL c es = true) (hn : noExprL es = true) :
    parseList c (serializeList c es) = es := by
  cases es with
  | nil => simp [serializeList, parseList]
  | cons v vr =>
    simp only [matchesL, Bool.and_eq_true] at hm
    simp only [noExprL, Bool.and_eq_true] at hn
    simp only [serializeList, parseList]
    rw [parse_serialize_value c v hw hm.1 hn.1]
    rw [parse_serialize_list c vr hw hm.2 hn.2]
end

mutual
theorem finalizeV_of_noExpr (v : EntityValue) (h : noExprV v = true) :
    finalizeV v = v := by
  cases v with
  | undef => rfl
  | jval j => rfl
  | exprObj r => simp [noExprV] at h
  | node fs =>
    simp only [finalizeV]
    rw [finalizeL_of_noExpr fs (by simpa [noExprV] using h)]
  | list es =>
    simp only [finalizeV]
    rw [finalizeL_of_noExpr es (by simpa [noExprV] using h)]

theorem finalizeL_of_noExpr (vs : ValueList) (h : noExprL vs = true) :
    finalizeL vs = vs := by
  cases vs with
  | nil => rfl
  | cons v vr =>
    simp only [noExprL, Bool.and_eq_true] at h
    simp only [finalizeL]
    rw [finalizeV_of_noExpr v h.1, finalizeL_of_noExpr vr h.2]
end

/-- C1: for a well-formed entity type whose declared names are distinct
and do not include the reserved key, and an entity whose field values
satisfy their constraints and contain no live expression-adapter
object, reconstructing from the exported document recovers the entity
exactly, with no version warning: the reserved schema-version key added
on export is stripped again on import and does not break the round
trip. -/
theorem C1_roundtrip (ds : FieldDecls) (vs : ValueList)
    (hw : wfD ds = true) (hm : matchesF ds vs = true) (hn : noExprL vs = true)
    (hs : nameMem "$schema" (declNames ds) = false) :
    TopLevelMixin_from_dict ds (TopLevelMixin_to_dict ds vs) = ([], vs) := by
  have hser : lookupDoc (serializeFields ds vs) "$schema" = none :=
    lookupDoc_serializeFields_none ds vs _ hs
  have hkey : hasKeyDoc (serializeFields ds vs) "$schema" = false := by
    simp [hasKeyDoc, hser]
  unfold TopLevelMixin_to_dict
  rw [finalizeL_of_noExpr vs hn]
  rw [setKeyDoc_of_not_has _ _ _ hkey]
  unfold TopLevelMixin_from_dict
  rw [lookupDoc_append_of_none _ _ _ hser]
  simp only [lookupDoc, if_pos rfl]
  simp only [isSchemaUrl, beq_self_eq_true, if_pos]
  rw [removeKeyDoc_append, removeKeyDoc_serializeFields ds vs _ hs]
  simp [removeKeyDoc, parse_serialize_fields ds vs hw hm hn]

/-- C1 witness: the concrete sample entity (mark, nested encoding, one
textual transform entry, width unset) round-trips through export and
import, with the hypotheses checked by evaluation. -/
theorem C1_roundtrip_witness :
    wfD sampleTy = true ∧ matchesF sampleTy sampleVals = true ∧
    noExprL sampleVals = true ∧
    nameMem "$schema" (declNames sampleTy) = false ∧
    TopLevelMixin_from_dict sampleTy (TopLevelMixin_to_dict sampleTy sampleVals) =
      ([], sampleVals) := by
  refine ⟨by decide, by decide, by decide, by decide, ?_⟩
  exact C1_roundtrip sampleTy sampleVals (by decide) (by decide) (by decide) (by decide)

/-- C7: when the reserved schema-version key is present with a value
that disagrees with the expected version, from_dict emits exactly one
version-mismatch warning, removes the key, and reconstructs from the
remaining keys; when the value agrees, no warning is emitted; in both
cases the document handed to reconstruction no longer carries the
reserved key. -/
theorem C7_schema_version_mismatch (ds : FieldDecls) (dct : Doc) (v : JValue)
    (hv : lookupDoc dct "$schema" = some v) :
    (isSchemaUrl v = false →
      TopLevelMixin_from_dict ds dct =
        ([.schemaVersionMismatch v], parseFields ds (removeKeyDoc dct "$schema"))) ∧
    (isSchemaUrl v = true →
      TopLevelMixin_from_dict ds dct =
        ([], parseFields ds (removeKeyDoc dct "$schema"))) ∧
    hasKeyDoc (removeKeyDoc dct "$schema") "$schema" = false := by
  refine ⟨fun h => ?_, fun h => ?_, ?_⟩
  · simp [TopLevelMixin_from_dict, hv, h]
  · simp [TopLevelMixin_from_dict, hv, h]
  · simp [hasKeyDoc, lookupDoc_removeKeyDoc_self]

/-- C7 witness: a concrete document with a mismatched version string
yields exactly the mismatch warning and proceeds on the remaining keys;
the same document with the expected version yields no warning. -/
theorem C7_schema_version_mismatch_witness :
    TopLevelMixin_from_dict sampleTy mismatchedDoc =
      ([.schemaVersionMismatch (.str "https://vega.github.io/schema/vega-lite/v1.json")],
       parseFields sampleTy (removeKeyDoc mismatchedDoc "$schema")) ∧
    TopLevelMixin_from_dict sampleTy matchingDoc =
      ([], parseFields sampleTy (removeKeyDoc matchingDoc "$schema")) := by
  constructor
  · exact (C7_schema_version_mismatch sampleTy mismatchedDoc _ rfl).1 (by decide)
  · exact (C7_schema_version_mismatch sampleTy matchingDoc _ rfl).2.1 (by decide)

theorem convert_convert (v : FilterVal) : convert (convert v) = convert v := by
  cases v <;> rfl

/-- C8: a calculated-field transform whose calculate trait holds a live
expression object, and a filter transform whose filter trait holds a
live expression object directly or as a list element, have that
expression replaced by its canonical textual form (its repr) on
finalization; already-textual values are left unchanged, so a second
finalization is a no-op on these traits. -/
theorem C8_transform_finalization (r s : String) (es : List FilterVal) (v : FilterVal) :
    CalculateTransform_finalize (.exprObj r) = .str r ∧
    CalculateTransform_finalize (.str s) = .str s ∧
    CalculateTransform_finalize (CalculateTransform_finalize v) =
      CalculateTransform_finalize v ∧
    FilterTransform_finalize (.exprObj r) = .str r ∧
    FilterTransform_finalize (.str s) = .str s ∧
    FilterTransform_finalize (.list es) = .list (es.map convert) ∧
    convert (.exprObj r) = FilterVal.str r ∧
    convert (.str s) = FilterVal.str s ∧
    FilterTransform_finalize (FilterTransform_finalize v) = FilterTransform_finalize v := by
  refine ⟨rfl, rfl, ?_, rfl, rfl, rfl, rfl, rfl, ?_⟩
  · cases v <;> rfl
  · cases v with
    | list es =>
      show FilterTransform_finalize (.list (es.map convert)) = .list (es.map convert)
      show FilterVal.list ((es.map convert).map convert) = .list (es.map convert)
      rw [List.map_map]
      exact congrArg FilterVal.list (List.map_congr_left (fun a _ => convert_convert a))
    | _ => rfl

/-- C9 (code bug): finalizing a composite bound to an expression-bound
frame with a calculated column fails, because the code constructs the
directive as `CalculateTransform(field, expr=exp)`: the expression is
passed under the unknown keyword name expr instead of the declared
calculate trait, so it never reaches the directive. -/
theorem C9_calculated_cols_bug :
    finalize_data buggyChart = .error (.unknownField "expr") ∧
    CalculateTransform_init "y" none [("expr", .exprObj "(datum.x * 2)")] =
      .error (.unknownField "expr") := by
  exact ⟨rfl, rfl⟩

/-- C6: the shared data setter of the three composite variants accepts
exactly a URL string (wrapped into a Data binding with that url), a
concrete DataFrame, a deferred expression-bound frame, an
already-constructed Data binding, or None; any other value raises
TypeError with the message built at api.py line 602; the layered and
faceted setters behave identically to the single-view one. -/
theorem C6_data_setter (s : String) (df : PDataFrame) (edf : ExprDataFrame)
    (d : DataObj) (r : String) :
    Chart_data_setter (.pyStr s) = .ok (some (.dataObj { url := some s })) ∧
    Chart_data_setter .pyNone = .ok none ∧
    Chart_data_setter (.pyDataFrame df) = .ok (some (.dataFrame df)) ∧
    Chart_data_setter (.pyExprDataFrame edf) = .ok (some (.exprDataFrame edf)) ∧
    Chart_data_setter (.pyData d) = .ok (some (.dataObj d)) ∧
    Chart_data_setter (.pyOther r) =
      .error (.typeError ("Expected DataFrame or altair.Data, got: " ++ r)) ∧
    (∀ v, LayeredChart_data_setter v = Chart_data_setter v) ∧
    (∀ v, FacetedChart_data_setter v = Chart_data_setter v) := by
  refine ⟨rfl, rfl, rfl, rfl, rfl, rfl, ?_, ?_⟩ <;> intro v <;> cases v <;> rfl

/-- C10: the layering operator accepts only another single-view Chart on
the right; a layered composite or any other value raises TypeError, and
addition succeeds exactly on single-view operands. -/
theorem C10_add_requires_chart (a b : ChartObj) (lc : LayeredChartObj) (r : String) :
    Chart_add a (.layered lc) =
      .error (.typeError "Can only add Charts/LayeredChart to Chart") ∧
    Chart_add a (.other r) =
      .error (.typeError "Can only add Charts/LayeredChart to Chart") ∧
    (∃ res, Chart_add a (.chart b) = .ok res) ∧
    (∀ x : AddOperand, (∃ res, Chart_add a x = .ok res) → ∃ bc, x = .chart bc) := by
  refine ⟨rfl, rfl, ⟨_, rfl⟩, ?_⟩
  intro x hx
  cases x with
  | chart bc => exact ⟨bc, rfl⟩
  | layered lc => exact absurd hx.choose_spec (by simp [Chart_add])
  | other r => exact absurd hx.choose_spec (by simp [Chart_add])

/-- C10 witness: at concrete operands, adding a layered composite to a
chart raises TypeError and adding a chart succeeds. -/
theorem C10_add_requires_chart_witness :
    Chart_add { mark := "point" } (.layered { layer := none }) =
      .error (.typeError "Can only add Charts/LayeredChart to Chart") ∧
    (∃ res, Chart_add { mark := "point" } (.chart { mark := "bar" }) = .ok res) := by
  have h := C10_add_requires_chart { mark := "point" } { mark := "bar" } { layer := none } "17"
  exact ⟨h.1, h.2.2.1⟩

/-- C4: adding two single-view composites yields a layered composite
whose ordered children are the two operands in combination order; its
document holds a "layer" array of length two with the document of the
left operand first; in-place append adds the new child at the end,
preserving prior order. -/
theorem C4_layering_order (a b newC : ChartObj) (l : List ChartObj) :
    Chart_add a (.chart b) = .ok { layer := some [a, b] } ∧
    lookupDoc (LayeredChart_to_dict { layer := some [a, b] }) "layer" =
      some (.arr [a.toDoc, b.toDoc]) ∧
    LayeredChart_iadd { layer := some l } newC = { layer := some (l ++ [newC]) } ∧
    LayeredChart_iadd { layer := none } newC = { layer := some [newC] } := by
  exact ⟨rfl, rfl, rfl, rfl⟩

/-- C2: with a concrete in-memory table bound as data, finalization
raises the row-limit error exactly when the row count strictly exceeds
the configured max_rows, and succeeds (leaving the composite unchanged)
otherwise. -/
theorem C2_row_limit (c : ChartState) (df : PDataFrame)
    (hd : c.data = some (.dataFrame df)) :
    (finalize_data c = .error (.maxRowsExceeded maxRowsErrorMessage) ↔
      c.max_rows < df.rows) ∧
    (df.rows ≤ c.max_rows → finalize_data c = .ok c) := by
  have hfd : finalize_data c =
      if df.rows > c.max_rows then .error (.maxRowsExceeded maxRowsErrorMessage)
      else .ok c := by
    unfold finalize_data
    rw [hd]
  refine ⟨⟨fun h => ?_, fun h => ?_⟩, fun h => ?_⟩
  · by_contra hlt
    rw [hfd, if_neg hlt] at h
    exact Except.noConfusion h
  · rw [hfd, if_pos h]
  · rw [hfd, if_neg (Nat.not_lt.mpr h)]

/-- C2 witness: a table of max_rows + 1 = 3 rows fails and a table of
exactly max_rows = 2 rows succeeds. -/
theorem C2_row_limit_witness :
    finalize_data sampleChartBig = .error (.maxRowsExceeded maxRowsErrorMessage) ∧
    finalize_data sampleChartOk = .ok sampleChartOk := by
  constructor
  · exact (C2_row_limit sampleChartBig sampleFrameBig rfl).1.mpr (by decide)
  · exact (C2_row_limit sampleChartOk sampleFrameOk rfl).2 (by decide)

set_option maxRecDepth 20000 in
/-- C3 counterexample: at a composite with configured max_rows 2 bound
to a three-row table, the row-limit error is raised, but its message
mentions neither the configured limit 2 nor the actual count 3: the
claim that the error is surfaced with the configured limit and the
actual row count is false on this input. -/
theorem C3_counterexample :
    finalize_data sampleChartBig = .error (.maxRowsExceeded maxRowsErrorMessage) ∧
    sampleChartBig.max_rows = 2 ∧ sampleFrameBig.rows = 3 ∧
    mentionsNat maxRowsErrorMessage 2 = false ∧
    mentionsNat maxRowsErrorMessage 3 = false := by
  refine ⟨rfl, rfl, rfl, ?_, ?_⟩ <;> decide

set_option maxRecDepth 20000 in
/-- C3 amended: when the row-limit error is raised its message is one
fixed string that reports the module default DEFAULT_MAX_ROWS; it
reflects neither the configured max_rows of the composite nor the
actual row count of the bound table. -/
theorem C3_message_reports_default (c : ChartState) (df : PDataFrame)
    (hd : c.data = some (.dataFrame df)) (hr : c.max_rows < df.rows) :
    finalize_data c = .error (.maxRowsExceeded maxRowsErrorMessage) ∧
    mentionsNat maxRowsErrorMessage DEFAULT_MAX_ROWS = true := by
  constructor
  · unfold finalize_data
    rw [hd]
    exact if_pos hr
  · decide

/-- C3 amended witness: at the concrete composite with max_rows 2 and a
three-row table, the error carries the fixed message, which mentions
5000. -/
theorem C3_message_reports_default_witness :
    finalize_data sampleChartBig = .error (.maxRowsExceeded maxRowsErrorMessage) ∧
    mentionsNat maxRowsErrorMessage DEFAULT_MAX_ROWS = true :=
  C3_message_reports_default sampleChartBig sampleFrameBig rfl (by decide)

/-- C5: from_dict dispatches on document shape before any field
reconstruction: a document with a "layer" key always reconstructs the
layered variant, a document with a "facet" key and no "layer" key always
reconstructs the faceted variant, and any other document reconstructs
the single-view variant, each through the declared-field table of the
selected class. -/
theorem C5_from_dict_dispatch (cTy lTy fTy : FieldDecls) (spec : Doc) :
    (hasKeyDoc spec "layer" = true →
      Chart_from_dict cTy lTy fTy spec = .layered (TopLevelMixin_from_dict lTy spec)) ∧
    (hasKeyDoc spec "layer" = false → hasKeyDoc spec "facet" = true →
      Chart_from_dict cTy lTy fTy spec = .faceted (TopLevelMixin_from_dict fTy spec)) ∧
    (hasKeyDoc spec "layer" = false → hasKeyDoc spec "facet" = false →
      Chart_from_dict cTy lTy fTy spec = .single (TopLevelMixin_from_dict cTy spec)) := by
  refine ⟨fun h1 => ?_, fun h1 h2 => ?_, fun h1 h2 => ?_⟩
  · simp [Chart_from_dict, h1]
  · simp [Chart_from_dict, h1, h2]
  · simp [Chart_from_dict, h1, h2]

/-- C5 witness: concrete documents of the three shapes dispatch to the
layered, faceted and single-view variants respectively. -/
theorem C5_from_dict_dispatch_witness :
    Chart_from_dict sampleTy sampleTy sampleTy layerDoc =
      .layered (TopLevelMixin_from_dict sampleTy layerDoc) ∧
    Chart_from_dict sampleTy sampleTy sampleTy facetDoc =
      .faceted (TopLevelMixin_from_dict sampleTy facetDoc) ∧
    Chart_from_dict sampleTy sampleTy sampleTy plainDoc =
      .single (TopLevelMixin_from_dict sampleTy plainDoc) := by
  refine ⟨?_, ?_, ?_⟩
  · exact (C5_from_dict_dispatch sampleTy sampleTy sampleTy layerDoc).1 rfl
  · exact (C5_from_dict_dispatch sampleTy sampleTy sampleTy facetDoc).2.1 rfl rfl
  · exact (C5_from_dict_dispatch sampleTy sampleTy sampleTy plainDoc).2.2 rfl rfl

end AltairV2
